import Mathlib

/-!
Verification development for the extraction and resolution engine of
`src/ollama_library_api.py` (an API proxy that parses a model-registry
website into structured records).

The Python code is shallowly embedded: each relevant Python function is
translated into an executable Lean definition over `String` / `List Char`
(strings), `Int` (microsecond timestamps and byte counts), and explicit
`Option` / `Except` values for Python `None` and raised exceptions.
Machine-level floating point is idealized by exact decimal arithmetic
(`PyDec` below): on every concrete input considered in the theorems the
IEEE double computation performed by CPython is exact, so the idealization
does not change any value stated here.
-/

/-! ## Python string primitives

Executable models of the Python `str` operations the source uses.
All are structural recursions so that concrete instances reduce by
`decide` / `rfl`.  Case mapping is modelled on the ASCII range (the
tokens handled by the source - namespaces, model names, tags, units,
quantization codes - are ASCII).
-/

/-- Python whitespace for `str.strip()` / `int()` / `float()`:
space, tab, newline, carriage return, vertical tab, form feed. -/
def isPySpace (c : Char) : Bool :=
  c == ' ' || c == '\t' || c == '\n' || c == '\r' || c == '\x0b' || c == '\x0c'

/-- Models Python `str.lower()` (ASCII case mapping). -/
def pyLower (s : String) : String := ⟨s.data.map Char.toLower⟩

/-- Models Python `str.upper()` (ASCII case mapping). -/
def pyUpper (s : String) : String := ⟨s.data.map Char.toUpper⟩

/-- Models Python `str.strip()` with no argument. -/
def pyStrip (s : String) : String :=
  ⟨((s.data.dropWhile isPySpace).reverse.dropWhile isPySpace).reverse⟩

/-- Substring test on character lists (helper for `containsStr`). -/
def listContainsSub (sub : List Char) : List Char → Bool
  | [] => sub.isEmpty
  | c :: cs => sub.isPrefixOf (c :: cs) || listContainsSub sub cs

/-- Models Python `sub in s` for strings. -/
def containsStr (s sub : String) : Bool := listContainsSub sub.data s.data

/-- Models Python `c in s` for a single character. -/
def pyContainsChar (s : String) (c : Char) : Bool := s.data.contains c

/-- Models Python `s.startswith(pre)`. -/
def startsWithStr (s pre : String) : Bool := pre.data.isPrefixOf s.data

/-- Fuel-driven worker for `pyReplace` (structural recursion on the fuel,
which is initialized to the length of the subject string; the pattern is
nonempty at every call site, so the fuel never runs out). -/
def replaceAux (pat repl : List Char) : Nat → List Char → List Char
  | _, [] => []
  | 0, l => l
  | fuel + 1, c :: cs =>
    if pat.isPrefixOf (c :: cs) then
      repl ++ replaceAux pat repl fuel ((c :: cs).drop pat.length)
    else
      c :: replaceAux pat repl fuel cs

/-- Models Python `s.replace(pat, repl)` (all non-overlapping occurrences,
left to right; only called with nonempty `pat`). -/
def pyReplace (s pat repl : String) : String :=
  ⟨replaceAux pat.data repl.data s.data.length s.data⟩

/-- Splits at the first `':'`, as Python `s.split(':', 1)` does when the
string contains a colon; `none` when there is no colon. -/
def splitFirstColon (s : String) : Option (String × String) :=
  match s.data.span (fun c => !(c == ':')) with
  | (pre, ':' :: post) => some (⟨pre⟩, ⟨post⟩)
  | _ => none

/-- Separator class of the GGUF-snippet splitter `re.split(r"[·, ]+", s)`:
middle dot, comma, space. -/
def isGgufSep (c : Char) : Bool := c == '·' || c == ',' || c == ' '

/-- Worker for `splitSepRuns`.  The Boolean state records whether the scan
is currently inside a separator run (in which case the accumulator is
irrelevant and a new piece starts at the next non-separator). -/
def splitSepRunsGo : List Char → List Char → Bool → List String
  | [], acc, false => [⟨acc.reverse⟩]
  | [], _, true => [""]
  | c :: cs, acc, false =>
    if isGgufSep c then (⟨acc.reverse⟩ : String) :: splitSepRunsGo cs [] true
    else splitSepRunsGo cs (c :: acc) false
  | c :: cs, _, true =>
    if isGgufSep c then splitSepRunsGo cs [] true
    else splitSepRunsGo cs [c] false

/-- Models Python `re.split(r"[·, ]+", s)`: pieces between maximal runs of
separators, with an empty piece at either end when the string starts or
ends with a separator, and `[""]` on the empty string. -/
def splitSepRuns (s : String) : List String := splitSepRunsGo s.data [] false

/-- Numeric value of a digit list, most significant first. -/
def digitsToNat (ds : List Char) : Nat :=
  ds.foldl (fun acc c => acc * 10 + (c.toNat - 48)) 0

/-! ## Python numeric primitives -/

/-- Exact decimal value `mant * 10 ^ exp10`, the idealization of a CPython
`float` produced by `float(<literal>)`. -/
structure PyDec where
  mant : Int
  exp10 : Int
deriving DecidableEq

/-- Models Python `float(s)` on finite decimal literals: optional
whitespace, optional sign, digits with an optional fractional part (at
least one digit overall), optional decimal exponent.  `none` models the
`ValueError` raised on anything else.  (The `inf` / `nan` forms and
underscore digit separators accepted by CPython are outside the fragment
exercised by the source's inputs and are modelled as errors.) -/
def pyFloat (s : String) : Option PyDec :=
  let cs := (pyStrip s).data
  let (sgn, cs1) : Int × List Char :=
    match cs with
    | '+' :: r => (1, r)
    | '-' :: r => (-1, r)
    | r => (1, r)
  let (ip, r1) := cs1.span Char.isDigit
  let (fp, r2) : List Char × List Char :=
    match r1 with
    | '.' :: rr => rr.span Char.isDigit
    | _ => ([], r1)
  if ip.isEmpty && fp.isEmpty then none
  else
    let mant : Int := sgn * (digitsToNat (ip ++ fp) : Int)
    match r2 with
    | [] => some ⟨mant, -(fp.length : Int)⟩
    | e :: rr =>
      if e == 'e' || e == 'E' then
        let (esgn, rr1) : Int × List Char :=
          match rr with
          | '+' :: r => (1, r)
          | '-' :: r => (-1, r)
          | r => (1, r)
        let (ed, rr2) := rr1.span Char.isDigit
        if ed.isEmpty || !rr2.isEmpty then none
        else some ⟨mant, esgn * (digitsToNat ed : Int) - (fp.length : Int)⟩
      else none

/-- Models Python `int(float_value * scale)` where `float_value` is the
decimal `v`: exact scaling followed by truncation toward zero. -/
def truncDecScaled (v : PyDec) (scale : Int) : Int :=
  if 0 ≤ v.exp10 then v.mant * scale * 10 ^ v.exp10.toNat
  else Int.tdiv (v.mant * scale) (10 ^ (-v.exp10).toNat)

/-- Models Python `int(s)` on decimal strings: optional whitespace,
optional sign, nonempty digits.  `none` models the `ValueError`. -/
def pyIntStr (s : String) : Option Int :=
  let cs := (pyStrip s).data
  match cs with
  | '+' :: ds =>
    if !ds.isEmpty && ds.all Char.isDigit then some (digitsToNat ds : Int) else none
  | '-' :: ds =>
    if !ds.isEmpty && ds.all Char.isDigit then some (-(digitsToNat ds : Int)) else none
  | ds =>
    if !ds.isEmpty && ds.all Char.isDigit then some (digitsToNat ds : Int) else none

/-! ## Naming helpers (`make_full_model_name`, `make_full_tag_name`) -/

/-- Embeds `make_full_model_name` (src/ollama_library_api.py, lines
195-198): the default namespace `"library"` is elided from the canonical
display name. -/
def make_full_model_name (namespace_ model_base_name : String) : String :=
  if namespace_ = "library" then model_base_name
  else namespace_ ++ "/" ++ model_base_name

/-- Embeds `make_full_tag_name` (lines 200-202). -/
def make_full_tag_name (namespace_ model_base_name tag_part : String) : String :=
  make_full_model_name namespace_ model_base_name ++ ":" ++ tag_part

/-! ## Count normalizer (`parse_pull_count`, lines 204-214)

The Python function lower-cases, removes commas and strips; an empty
result yields 0.  Then it tests `'m' in s` (anywhere, not only as a
suffix) before `'k' in s`; in those branches it deletes every `'m'`
(resp. `'k'`) and calls `float` on the remainder with no exception
handler, so a non-numeric remainder propagates a `ValueError` - modelled
as `none`.  Only the final plain-`int` branch catches its `ValueError`
and yields 0. -/

/-- Embeds `parse_pull_count` (lines 204-214).  `none` models an escaped
`ValueError` from the unguarded `float(...)` calls. -/
def parse_pull_count (pull_str : String) : Option Int :=
  let t := pyStrip (pyReplace (pyLower pull_str) "," "")
  if t = "" then some 0
  else if pyContainsChar t 'm' then
    (pyFloat (pyReplace t "m" "")).map (fun v => truncDecScaled v 1000000)
  else if pyContainsChar t 'k' then
    (pyFloat (pyReplace t "k" "")).map (fun v => truncDecScaled v 1000)
  else some ((pyIntStr t).getD 0)

/-- Count normalizer as the specification reads: the multiplier branches
fire only when the (comma-stripped, lower-cased, stripped) input *ends*
in `k` / `m`, the prefix before the suffix is the numeric part, and every
unparsable input yields 0 without raising. -/
def pull_count_spec_reading (pull_str : String) : Int :=
  let t := pyStrip (pyReplace (pyLower pull_str) "," "")
  if t = "" then 0
  else
    match t.data.getLast? with
    | some 'k' => ((pyFloat ⟨t.data.dropLast⟩).map (fun v => truncDecScaled v 1000)).getD 0
    | some 'm' => ((pyFloat ⟨t.data.dropLast⟩).map (fun v => truncDecScaled v 1000000)).getD 0
    | _ => (pyIntStr t).getD 0

/-! ## Size normalizer (`parse_size_str_to_bytes`, lines 247-266) -/

/-- Embeds `re.sub(r"[^0-9.]", "", s)` (line 251). -/
def stripNonNumeric (s : String) : String :=
  ⟨s.data.filter (fun c => c.isDigit || c == '.')⟩

/-- Unit factor applied by `parse_size_str_to_bytes`, in the code's test
order (`KB|KiB`, `MB|MiB`, `GB|GiB`, `TB|TiB` against the upper-cased
stripped input), 1 when no unit token occurs. -/
def sizeUnitScale (size_str_upper : String) : Int :=
  if containsStr size_str_upper "KB" || containsStr size_str_upper "KIB" then 1024
  else if containsStr size_str_upper "MB" || containsStr size_str_upper "MIB" then 1048576
  else if containsStr size_str_upper "GB" || containsStr size_str_upper "GIB" then 1073741824
  else if containsStr size_str_upper "TB" || containsStr size_str_upper "TIB" then 1099511627776
  else 1

/-- Embeds `parse_size_str_to_bytes` (lines 247-266).  Total: every
`ValueError` in the Python body is caught and yields 0. -/
def parse_size_str_to_bytes (size_str : String) : Int :=
  if size_str = "" then 0
  else
    let size_str_upper := pyStrip (pyUpper size_str)
    let val_str := stripNonNumeric size_str
    if val_str = "" then 0
    else
      match pyFloat val_str with
      | none => 0
      | some v =>
        if containsStr size_str_upper "KB" || containsStr size_str_upper "KIB" then
          truncDecScaled v 1024
        else if containsStr size_str_upper "MB" || containsStr size_str_upper "MIB" then
          truncDecScaled v 1048576
        else if containsStr size_str_upper "GB" || containsStr size_str_upper "GIB" then
          truncDecScaled v 1073741824
        else if containsStr size_str_upper "TB" || containsStr size_str_upper "TIB" then
          truncDecScaled v 1099511627776
        else truncDecScaled v 1

/-! ## Relative/absolute date normalizer (`parse_relative_date_to_datetime`,
lines 216-237)

Timestamps are modelled as `Int` microseconds since the Unix epoch, UTC.
`datetime.replace(hour=0, minute=0, second=0, microsecond=0)` on a UTC
datetime is flooring to the day boundary. -/

/-- Units recognized by the `"<N> <unit>(s) ago"` pattern. -/
inductive RelUnit where
  | minute | hour | day | week | month | year
deriving DecidableEq

/-- Microseconds per unit; month and year use the source's explicit
30-day / 365-day approximations. -/
def relUnitMicros : RelUnit → Int
  | .minute => 60000000
  | .hour => 3600000000
  | .day => 86400000000
  | .week => 604800000000
  | .month => 2592000000000
  | .year => 31536000000000

/-- Floor a UTC timestamp to midnight of its day
(`replace(hour=0, minute=0, second=0, microsecond=0)`). -/
def floorDayUtc (t : Int) : Int := t - t.emod 86400000000

/-- Matches one of the unit words at the head of the character list,
in the alternation order of the source regex. -/
def matchRelUnit (cs : List Char) : Option (RelUnit × List Char) :=
  if "minute".data.isPrefixOf cs then some (.minute, cs.drop 6)
  else if "hour".data.isPrefixOf cs then some (.hour, cs.drop 4)
  else if "day".data.isPrefixOf cs then some (.day, cs.drop 3)
  else if "week".data.isPrefixOf cs then some (.week, cs.drop 4)
  else if "month".data.isPrefixOf cs then some (.month, cs.drop 5)
  else if "year".data.isPrefixOf cs then some (.year, cs.drop 4)
  else none

/-- Models `re.match(r"(\d+)\s+(minute|hour|day|week|month|year)s?\s+ago", s)`
(a prefix match: trailing text after `"ago"` is permitted). -/
def parseRelPrefix (cs : List Char) : Option (Nat × RelUnit) :=
  let (ds, r1) := cs.span Char.isDigit
  if ds.isEmpty then none
  else
    let (sp1, r2) := r1.span isPySpace
    if sp1.isEmpty then none
    else
      match matchRelUnit r2 with
      | none => none
      | some (u, r3) =>
        let r4 := match r3 with
          | 's' :: tail => tail
          | other => other
        let (sp2, r5) := r4.span isPySpace
        if sp2.isEmpty then none
        else if "ago".data.isPrefixOf r5 then some (digitsToNat ds, u)
        else none

/-- Embeds `parse_relative_date_to_datetime` (lines 216-237) with an
explicit base time.  The unparsable fallback (line 236-237) returns the
base time unchanged. -/
def parse_relative_date_to_datetime (relative_str : String) (base_time : Int) : Int :=
  let s := pyStrip (pyLower relative_str)
  if containsStr s "just now" || containsStr s "moments ago" then base_time
  else if containsStr s "yesterday" then floorDayUtc base_time - 86400000000
  else
    match parseRelPrefix s.data with
    | some (n, u) => base_time - (n : Int) * relUnitMicros u
    | none => base_time

/-- Models a *defaulted* call `parse_relative_date_to_datetime(s)`.  The
Python signature is `def parse_relative_date_to_datetime(relative_str,
base_time=datetime.now(timezone.utc))` (line 216): the default expression
is evaluated exactly once, when the module is imported, so every call
that omits `base_time` - which every call site in the source does (lines
333, 335, 431, 432, 609, 611, 631, 844) - uses the import-time constant
`module_load_time`.  The wall-clock time of the call, `call_time`, does
not enter the computation. -/
def parse_relative_date_defaulted (module_load_time call_time : Int) (s : String) : Int :=
  parse_relative_date_to_datetime s module_load_time

/-! ## GGUF metadata-snippet normalizer
(`parse_gguf_metadata_from_snippet`, lines 663-682) -/

/-- Record built by the snippet normalizer; `none` marks a key absent
from the Python `metadata` dict (note the dict can hold an empty-string
value, modelled as `some ""`). -/
structure GGUFMetadata where
  arch : Option String
  parameters : Option String
  quantization : Option String
deriving DecidableEq

/-- Lower-case ASCII letter (`[a-z]` of the source regexes, which run on
the lower-cased snippet). -/
def isLowerAlpha (c : Char) : Bool := 'a' ≤ c && c ≤ 'z'

/-- Models `re.match(r"^[^:]+$", part)`: nonempty, no colon. -/
def noColonToken (s : String) : Bool :=
  !s.data.isEmpty && s.data.all (fun c => !(c == ':'))

/-- Models `re.match(r"^\w+$", part)` on ASCII: nonempty, all
alphanumeric-or-underscore. -/
def isWordToken (s : String) : Bool :=
  !s.data.isEmpty && s.data.all (fun c => c.isAlphanum || c == '_')

/-- Models `any(c.isdigit() for c in part)` on ASCII digits. -/
def hasDigitChar (s : String) : Bool := s.data.any Char.isDigit

/-- Models `re.match(r"^\d+(\.\d+)?[a-z]+$", part)`. -/
def isParamShape (s : String) : Bool :=
  let (ds, r) := s.data.span Char.isDigit
  !ds.isEmpty &&
    match r with
    | '.' :: r2 =>
      let (ds2, r3) := r2.span Char.isDigit
      !ds2.isEmpty && !r3.isEmpty && r3.all isLowerAlpha
    | _ => !r.isEmpty && r.all isLowerAlpha

/-- Models `re.match(r"^[fq]\d+(_\d+|[a-z_]+)?$", part)`. -/
def isQuantShape (s : String) : Bool :=
  match s.data with
  | [] => false
  | c :: rest =>
    (c == 'f' || c == 'q') &&
      (let (ds, r) := rest.span Char.isDigit
       !ds.isEmpty &&
         (r.isEmpty ||
          (match r with
           | '_' :: r2 => !r2.isEmpty && r2.all Char.isDigit
           | _ => false) ||
          r.all (fun x => isLowerAlpha x || x == '_')))

/-- The enumerated quantization codes of line 679. -/
def knownQuantCodes : List String :=
  ["q2_k", "q3_k_s", "q3_k_m", "q3_k_l", "q4_0", "q4_1", "q4_k_s", "q4_k_m",
   "q5_0", "q5_1", "q5_k_s", "q5_k_m", "q6_k", "q8_0"]

/-- One iteration of the `for part in parts` loop of
`parse_gguf_metadata_from_snippet` (lines 669-679), acting on the
metadata accumulated so far.  A key counts as present (`"arch" in
metadata`) exactly when the field is `some _`. -/
def gguf_step (m : GGUFMetadata) (part : String) : GGUFMetadata :=
  if startsWithStr part "arch:" then
    { m with arch := some (pyStrip (pyReplace part "arch:" "")) }
  else if startsWithStr part "parameters:" then
    { m with parameters := some (pyUpper (pyStrip (pyReplace part "parameters:" ""))) }
  else if startsWithStr part "quantization:" then
    { m with quantization := some (pyUpper (pyStrip (pyReplace part "quantization:" ""))) }
  else if noColonToken part then
    if isWordToken part && m.arch.isNone && !hasDigitChar part then
      { m with arch := some part }
    else if isParamShape part && m.parameters.isNone then
      { m with parameters := some (pyUpper part) }
    else if (isQuantShape part || knownQuantCodes.contains part) && m.quantization.isNone then
      { m with quantization := some (pyUpper part) }
    else m
  else m

/-- Embeds `parse_gguf_metadata_from_snippet` (lines 663-682): splits the
lower-cased, stripped snippet on runs of middle-dot/comma/space, folds
the token classifier over the pieces, and returns `none` when the
metadata dict stayed empty. -/
def parse_gguf_metadata_from_snippet (snippet : String) : Option GGUFMetadata :=
  if snippet = "" then none
  else
    let parts := splitSepRuns (pyStrip (pyLower snippet))
    let m := parts.foldl gguf_step ⟨none, none, none⟩
    if m = ⟨none, none, none⟩ then none else some m

/-! ## Summary extraction on a model-detail page
(`parse_model_page_html`, lines 409-414) -/

/-- Embeds the summary extraction of `parse_model_page_html` (lines
409-414).  `marker_text` is the text of the first `#summary-content`
node when that structural marker exists (`none` when it is missing);
`textarea_text` likewise for the `#summary-textarea` fallback node.
A missing marker yields the literal `"Summary not found."`; a present
marker whose stripped text is empty or reads `"no summary"` falls back
to the textarea text when that node exists. -/
def extract_summary (marker_text textarea_text : Option String) : String :=
  let summary := match marker_text with
    | some t => t
    | none => "Summary not found."
  if pyStrip summary = "" || pyLower (pyStrip summary) = "no summary" then
    match textarea_text with
    | some t => t
    | none => summary
  else summary

/-! ## Tag-dropdown extraction and active-tag resolution
(`parse_model_page_html`, lines 500-534)

The HTML selection is abstracted away: a `DropRow` is one anchor matched
by the `#tags-nav` selector of line 503, carrying the data the loop reads
from it.  `active0` is the value of `active_tag_part` accumulated before
the loop (URL tag, highlighted-button label, or run-command suffix,
lines 368-455); Python `None` is `none`, and Python truthiness of the
string-or-`None` variable is `pyTruthyOpt`. -/

/-- One anchor of the tag dropdown as the loop of lines 503-522 reads it:
its whole text (for the `"View all"` skip), the text of its tag-name span
when present, the text of its size span when present, and whether the
`bg-neutral-100` highlight class is on it. -/
structure DropRow where
  full_text : String
  tag_span_text : Option String
  size_text : Option String
  highlighted : Bool
deriving DecidableEq

/-- The `TagSummary` record (lines 93-97). -/
structure TagSummary where
  tag_part : String
  name_full_tag : String
  size_str : Option String
  is_active : Bool
deriving DecidableEq

/-- Python truthiness of an `Optional[str]`: `None` and `""` are falsy. -/
def pyTruthyOpt : Option String → Bool
  | none => false
  | some s => !(s == "")

/-- Python `==` between an `Optional[str]` and a `str`
(`None == s` is `False`). -/
def pyOptEqStr : Option String → String → Bool
  | none, _ => false
  | some t, s => t == s

/-- Embeds the dropdown loop (lines 503-522): skips `"View all"` anchors,
lower-cases the tag-name span text (empty when the span is missing),
adopts a highlighted row's tag as `active_tag_part` when none is set yet
(line 514-515), and appends a `TagSummary` whose extraction-time active
flag compares the *current* `active_tag_part` with the row's tag part
(line 521).  Returns the post-loop `active_tag_part` and the entry list. -/
def dropdown_loop (ns mbn : String) (active0 : Option String) (rows : List DropRow) :
    Option String × List TagSummary :=
  rows.foldl
    (fun acc row =>
      if containsStr row.full_text "View all" then acc
      else
        let tag_part := pyLower (match row.tag_span_text with
          | some t => t
          | none => "")
        let act := if !pyTruthyOpt acc.1 && row.highlighted then some tag_part else acc.1
        (act, acc.2 ++
          [⟨tag_part, make_full_tag_name ns mbn tag_part, row.size_text,
            pyOptEqStr act tag_part⟩]))
    (active0, [])

/-- Embeds the post-loop reconciliation (lines 524-532): when
`active_tag_part` is still falsy and the dropdown is nonempty, the first
entry's tag becomes the active tag and *only that entry's* flag is set;
otherwise, when `active_tag_part` is truthy, every entry's flag is
rewritten to `tag_part == active_tag_part`.  Returns the resolved active
tag and the final entry list. -/
def resolve_dropdown_active (ns mbn : String) (active0 : Option String)
    (rows : List DropRow) : Option String × List TagSummary :=
  let r := dropdown_loop ns mbn active0 rows
  if !pyTruthyOpt r.1 && !r.2.isEmpty then
    match r.2 with
    | [] => r
    | e :: rest => (some e.tag_part, { e with is_active := true } :: rest)
  else if pyTruthyOpt r.1 then
    (r.1, r.2.map (fun ts => { ts with is_active := pyOptEqStr r.1 ts.tag_part }))
  else r

/-- Embeds the post-parse rewrite of `get_specific_tag_details` (lines
892-893): every dropdown entry's flag becomes `tag_part == norm_tp`. -/
def specific_tag_rewrite (norm_tp : String) (entries : List TagSummary) : List TagSummary :=
  entries.map (fun ts => { ts with is_active := ts.tag_part == norm_tp })

/-! ## All-tags page rows (`parse_all_tags_page_html`, lines 564-585)

Only the name-matching and tag extraction are embedded; a row is given
by the text of its anchor (`none` when the row has no anchor with an
`href`, which the source skips at line 571). -/

/-- Identity data of one accepted all-tags row. -/
structure TagRowIdentity where
  tag_part : String
  name_full_tag : String
deriving DecidableEq

/-- Embeds the name filter of lines 573-585: a displayed name containing
a colon is split at the first colon and accepted iff the part before it
equals (case-insensitively) the expected canonical model name, yielding
the part after the colon as the tag - stored *verbatim*, not
lower-cased (line 578); a bare displayed name is accepted iff it equals
the expected name case-insensitively, yielding tag `"latest"`. -/
def all_tags_row_tag_part (expected_full_lower : String) (displayed : String) :
    Option String :=
  match splitFirstColon displayed with
  | some (pre, post) =>
    if pyLower pre = expected_full_lower then some post else none
  | none =>
    if pyLower displayed = expected_full_lower then some "latest" else none

/-- Embeds the row loop of `parse_all_tags_page_html` (lines 568-585)
restricted to identity production: rows without an anchor are skipped,
and each surviving row contributes iff its displayed name passes
`all_tags_row_tag_part` against the expected canonical name. -/
def parse_all_tags_rows (model_namespace model_base_name_in : String)
    (rows : List (Option String)) : List TagRowIdentity :=
  rows.filterMap (fun anchor_text =>
    anchor_text.bind (fun displayed =>
      (all_tags_row_tag_part
          (pyLower (make_full_model_name model_namespace model_base_name_in))
          displayed).map
        (fun tp =>
          ⟨tp, make_full_tag_name model_namespace model_base_name_in tp⟩)))

/-! ## Request-identity normalization (endpoint entry, lines 867-869,
778-781, 903-904, 933) -/

/-- Embeds the normalization every endpoint performs on its path
parameters before any lookup: namespace, base name and tag are
lower-cased (`namespace.lower()` etc.). -/
def resolve_tag_request_identity (namespace_ model_base_name tag_part : String) :
    String × String × String :=
  (pyLower namespace_, pyLower model_base_name, pyLower tag_part)

/-! ## Resolution orchestrator: namespace-fallback ladder
(`get_specific_tag_details` lines 872-895; the same ladder appears in
`get_blob_information` lines 784-798, `list_all_tags` lines 906-918 and
`get_model_details` lines 934-946)

The HTTP collaborator is abstracted as a function from the namespace
under which the page is requested to an outcome; the model/tag tokens of
the URL are fixed throughout one lookup, so the namespace is the only
varying part of the key. -/

/-- Outcome of one `cached_session.get` as the ladder reads it: a 2xx
document, a 404, or any other failure (non-2xx status or raised
`RequestException`). -/
inductive FetchResult (α : Type) where
  | ok (doc : α)
  | notFound
  | transportFail
deriving DecidableEq

/-- Failure of the whole lookup: HTTP 404 or HTTP 503 respectively. -/
inductive LookupFailure where
  | notFound
  | serviceUnavailable
deriving DecidableEq

/-- Embeds the ladder (lines 873-884): request under the normalized
caller namespace; on 404, when that namespace is not `"library"`, retry
exactly once under `"library"` and adopt `"library"` as the effective
namespace on success; a second 404 (or a 404 when the caller namespace
already was `"library"`) fails as not-found; any other failure of the
response in play surfaces as service-unavailable. -/
def fetchWithNamespaceFallback {α : Type} (world : String → FetchResult α)
    (norm_ns : String) : Except LookupFailure (String × α) :=
  match world norm_ns with
  | .ok d => .ok (norm_ns, d)
  | .notFound =>
    if norm_ns ≠ "library" then
      match world "library" with
      | .ok d => .ok ("library", d)
      | .notFound => .error .notFound
      | .transportFail => .error .serviceUnavailable
    else .error .notFound
  | .transportFail => .error .serviceUnavailable

/-- Identity-bearing part of the record returned by the tag-details
endpoint: the effective namespace after the ladder and the full tag name
built from it (lines 890-891), plus the fetched document. -/
structure TagLookupResult (α : Type) where
  namespace_used : String
  name_full_tag : String
  doc : α
deriving DecidableEq

/-- Embeds the orchestration of `get_specific_tag_details` (lines
862-895) down to the identity fields: path parameters are lower-cased
(lines 867-869), the ladder runs, and the returned record's tag identity
is built from the *effective* namespace (`norm_ns` after the ladder) and
the normalized base/tag tokens. -/
def get_specific_tag_details_model {α : Type} (world : String → FetchResult α)
    (namespace_ model_base_name tag_part : String) :
    Except LookupFailure (TagLookupResult α) :=
  let norm_ns := pyLower namespace_
  let norm_mbn := pyLower model_base_name
  let norm_tp := pyLower tag_part
  match fetchWithNamespaceFallback world norm_ns with
  | .ok (effective_ns, d) =>
    .ok ⟨effective_ns, make_full_tag_name effective_ns norm_mbn norm_tp, d⟩
  | .error e => .error e

/-! ## Blob classification (`get_blob_information`, lines 811-858) -/

/-- The `FileSummary` record (lines 85-91) restricted to what blob
classification reads. -/
structure FileSummary where
  name : String
  snippet : String
  digest : Option String
  size_str : String
  updated_str : String
deriving DecidableEq

/-- Outcome of fetching the blob's full content (lines 820-828),
abstracted past the content-type dispatch: on success,
`text_after_decode` is the response text, or - for an HTML content type -
the text of the page's first `pre` block (`none` when that block is
missing, line 655-661); `failure` models a raised `RequestException`
(line 832). -/
inductive BlobFetchOutcome where
  | success (text_after_decode : Option String)
  | failure
deriving DecidableEq

/-- The four content fields of `BlobDetailsResponse` that classification
decides (lines 811-814, 846-858); `α` abstracts decoded JSON values. -/
structure BlobContentFields (α : Type) where
  text_content : Option String
  parsed_json_content : Option α
  gguf_metadata_snippet : Option String
  parsed_gguf_metadata : Option GGUFMetadata
deriving DecidableEq

/-- The fixed text-blob name set (line 817). -/
def text_blob_names : List String := ["params", "template", "license", "modelfile"]

/-- Embeds the classification of `get_blob_information` (lines 811-844):
a name in `text_blob_names` fetches and decodes the blob content (a
fetch failure falls back to the listing snippet, line 834), and for
`"params"` with truthy text additionally attempts a JSON decode whose
failure (`jsonDecode _ = none`) is swallowed (lines 829-831); the name
`"model"` uses only the listing snippet and runs the GGUF normalizer on
it when the snippet is truthy (lines 835-838); any other name uses the
snippet verbatim as text content (lines 839-840). -/
def classify_blob {α : Type} (jsonDecode : String → Option α)
    (fetch_outcome : BlobFetchOutcome) (fs : FileSummary) : BlobContentFields α :=
  if fs.name ∈ text_blob_names then
    match fetch_outcome with
    | .success tc =>
      let pj := match tc with
        | some t => if t ≠ "" ∧ fs.name = "params" then jsonDecode t else none
        | none => none
      ⟨tc, pj, none, none⟩
    | .failure => ⟨some fs.snippet, none, none, none⟩
  else if fs.name = "model" then
    ⟨none, none, some fs.snippet,
      if fs.snippet ≠ "" then parse_gguf_metadata_from_snippet fs.snippet else none⟩
  else ⟨some fs.snippet, none, none, none⟩

/-! ## Helper lemmas -/

/-- `Char.ofNat` of a valid scalar value has that value as `toNat`. -/
theorem char_toNat_ofNat_valid {n : Nat} (h : Nat.isValidChar n) :
    (Char.ofNat n).toNat = n := by
  unfold Char.ofNat
  rw [dif_pos h]
  rfl

/-- ASCII lower-casing of a character is idempotent. -/
theorem char_toLower_toLower (c : Char) :
    Char.toLower (Char.toLower c) = Char.toLower c := by
  unfold Char.toLower
  by_cases h : c.toNat ≥ 65 ∧ c.toNat ≤ 90
  · rw [if_pos h]
    obtain ⟨h1, h2⟩ := h
    have hv : Nat.isValidChar (c.toNat + 32) := Or.inl (by omega)
    have ht : (Char.ofNat (c.toNat + 32)).toNat = c.toNat + 32 :=
      char_toNat_ofNat_valid hv
    rw [ht, if_neg (by omega)]
  · rw [if_neg h, if_neg h]

/-- Python `str.lower()` is idempotent. -/
theorem pyLower_idem (s : String) : pyLower (pyLower s) = pyLower s := by
  have hl : ∀ l : List Char, (l.map Char.toLower).map Char.toLower = l.map Char.toLower := by
    intro l
    induction l with
    | nil => rfl
    | cons c cs ih => simp [char_toLower_toLower, ih]
  exact congrArg String.mk (hl s.data)

/-! ## Claim theorems -/

/-- C3, counterexample: on a detail page whose `#summary-content`
structural marker is missing (and with no textarea either), the produced
summary is the literal `"Summary not found."`, not the empty string the
claim requires. -/
theorem C3_counterexample :
    extract_summary none none = "Summary not found." ∧
    extract_summary none none ≠ "" := by
  constructor
  · rfl
  · decide

/-- C3 (amended): parsing a page with a missing or malformed summary
marker never fails and yields a documented default, but the default for
a *missing* marker is the placeholder `"Summary not found."` (for any
state of the textarea node); the empty string arises only when the
marker is present with empty text and the textarea fallback is also
missing, and a present empty marker with a textarea yields the textarea
text. -/
theorem C3_summary_default_amended :
    (∀ textarea_text, extract_summary none textarea_text = "Summary not found.") ∧
    extract_summary (some "") none = "" ∧
    (∀ t, extract_summary (some "") (some t) = t) := by
  refine ⟨fun ta => rfl, rfl, fun t => rfl⟩

/-- C4: evaluating the GGUF metadata-snippet normalizer at the claimed
input `"arch: llama · 7b · Q4_0"` yields architecture `""` - the space
after the colon makes the splitter separate `"arch:"` from `"llama"`,
the explicit-key branch stores the empty remainder, and the presence of
the `arch` key then blocks the heuristic from assigning `"llama"` - while
the same snippet without the space yields the claimed `"llama"`. -/
theorem C4_gguf_snippet_eval :
    parse_gguf_metadata_from_snippet "arch: llama · 7b · Q4_0" =
      some ⟨some "", some "7B", some "Q4_0"⟩ ∧
    parse_gguf_metadata_from_snippet "arch:llama · 7b · Q4_0" =
      some ⟨some "llama", some "7B", some "Q4_0"⟩ := by
  constructor
  · rfl
  · rfl

/-- C10: the relative-date normalizer's default base time is the single
timestamp captured when the module is imported, so two defaulted calls
made at different wall-clock times agree, and a defaulted
`"2 days ago"` is measured from the module-load time, not from the call
time. -/
theorem C10_default_base_is_module_load (L t₁ t₂ : Int) (s : String) :
    parse_relative_date_defaulted L t₁ s = parse_relative_date_defaulted L t₂ s ∧
    parse_relative_date_defaulted L t₁ "2 days ago" = L - 2 * 86400000000 := by
  exact ⟨rfl, rfl⟩

/-- C5, counterexample: the all-tags parser stores a row's tag part in
its displayed case - the row `"llama3:8B"` of the model `library/llama3`
produces the stored tag token `"8B"`, which is not lower-case. -/
theorem C5_counterexample :
    parse_all_tags_rows "library" "llama3" [some "llama3:8B"] =
      [⟨"8B", "llama3:8B"⟩] ∧
    pyLower "8B" ≠ "8B" := by
  constructor
  · rfl
  · decide

/-- C5 (amended): request-path identity resolution is case-insensitive -
every endpoint lower-cases namespace, base name and tag before lookup,
so resolving a path and resolving its lower-cased form yield identical
identities (e.g. `"Library"/"Llama3"` and `"library"/"llama3"`); but a
tag token stored by the all-tags parser keeps the displayed case of its
row verbatim (only the name comparison is case-insensitive). -/
theorem C5_case_insensitive_amended :
    (∀ ns mbn tp, resolve_tag_request_identity ns mbn tp =
      resolve_tag_request_identity (pyLower ns) (pyLower mbn) (pyLower tp)) ∧
    resolve_tag_request_identity "Library" "Llama3" "Q4" =
      resolve_tag_request_identity "library" "llama3" "q4" ∧
    (∀ expected displayed pre post,
      splitFirstColon displayed = some (pre, post) →
      pyLower pre = expected →
      all_tags_row_tag_part expected displayed = some post) := by
  refine ⟨?_, by decide, ?_⟩
  · intro ns mbn tp
    simp [resolve_tag_request_identity, pyLower_idem]
  · intro expected displayed pre post h1 h2
    unfold all_tags_row_tag_part
    rw [h1]
    simp [h2]

/-- C5, witness: the amended theorem applied to the model
`library/llama3` with the displayed row `"Llama3:8B"` - the name match
is case-insensitive and the stored tag is the verbatim `"8B"`. -/
theorem C5_witness :
    all_tags_row_tag_part "llama3" "Llama3:8B" = some "8B" :=
  C5_case_insensitive_amended.2.2 "llama3" "Llama3:8B" "Llama3" "8B"
    (by decide) (by decide)

/-- C8, counterexample: the count normalizer tests `'k'`/`'m'`
*anywhere* in the input rather than as a suffix, and its `float` calls
in those branches are unguarded.  On `"k5"` the code returns 5000 where
the claim's reading (no `k`/`m` suffix, plain-integer parse, 0 on
failure) requires 0; and on `"am"` the code raises a `ValueError`
(modelled `none`) instead of returning 0. -/
theorem C8_counterexample :
    parse_pull_count "k5" = some 5000 ∧
    pull_count_spec_reading "k5" = 0 ∧
    parse_pull_count "am" = none := by
  refine ⟨rfl, rfl, rfl⟩

/-- C8 (amended): the count normalizer strips thousands separators and
behaves as claimed on the claim's examples, but the multiplier branches
fire when the normalized input *contains* `'m'` (tested first) or `'k'`
anywhere, deleting every occurrence of that letter before the numeric
parse; and it raises (modelled `none`) exactly when such a branch's
remainder is not a valid float literal - only the plain-integer branch
degrades to 0. -/
theorem C8_pull_count_amended :
    parse_pull_count "1,234" = some 1234 ∧
    parse_pull_count "2.5k" = some 2500 ∧
    parse_pull_count "3m" = some 3000000 ∧
    parse_pull_count "" = some 0 ∧
    parse_pull_count "garbage" = some 0 ∧
    (∀ s,
      parse_pull_count s = none ↔
        (let t := pyStrip (pyReplace (pyLower s) "," "")
         t ≠ "" ∧
           ((pyContainsChar t 'm' ∧ pyFloat (pyReplace t "m" "") = none) ∨
            (¬pyContainsChar t 'm' ∧ pyContainsChar t 'k' ∧
              pyFloat (pyReplace t "k" "") = none)))) := by
  refine ⟨rfl, rfl, rfl, rfl, rfl, ?_⟩
  intro s
  unfold parse_pull_count
  by_cases h0 : pyStrip (pyReplace (pyLower s) "," "") = ""
  · simp [h0]
  · simp only [h0, if_false, ne_eq, not_false_iff, true_and]
    by_cases hm : pyContainsChar (pyStrip (pyReplace (pyLower s) "," "")) 'm'
    · simp [hm, Option.map_eq_none]
    · simp only [hm, Bool.false_eq_true, if_false, not_false_iff, true_and,
        false_and, false_or]
      by_cases hk : pyContainsChar (pyStrip (pyReplace (pyLower s) "," "")) 'k'
      · simp [hk, Option.map_eq_none]
      · simp [hk]

/-- C8, witness: the amended characterization applied at `"am"` - the
`'m'` branch fires and its remainder `"a"` is not numeric, so the call
raises. -/
theorem C8_witness : parse_pull_count "am" = none :=
  (C8_pull_count_amended.2.2.2.2.2 "am").mpr (by exact ⟨by decide, Or.inl ⟨by decide, rfl⟩⟩)

/-- C9: the size normalizer keeps only digits and dots to obtain the
magnitude, scales it by the factor selected case-insensitively from the
unit tokens `KB|KiB`, `MB|MiB`, `GB|GiB`, `TB|TiB` (1024^1..4, and 1
when no unit token occurs, giving a bare byte count), and yields 0 for
empty or unparsable input without raising; in particular
`"1.5 GB"` gives 1,610,612,736 and `"512MB"` gives 536,870,912. -/
theorem C9_size_normalizer :
    parse_size_str_to_bytes "1.5 GB" = 1610612736 ∧
    parse_size_str_to_bytes "512MB" = 536870912 ∧
    parse_size_str_to_bytes "" = 0 ∧
    parse_size_str_to_bytes "junk" = 0 ∧
    (∀ s v, s ≠ "" → pyFloat (stripNonNumeric s) = some v →
      parse_size_str_to_bytes s = truncDecScaled v (sizeUnitScale (pyStrip (pyUpper s)))) ∧
    (∀ s, pyFloat (stripNonNumeric s) = none → parse_size_str_to_bytes s = 0) := by
  refine ⟨rfl, rfl, rfl, rfl, ?_, ?_⟩
  · intro s v hs hv
    unfold parse_size_str_to_bytes
    rw [if_neg hs]
    have hval : stripNonNumeric s ≠ "" := by
      intro he
      rw [he] at hv
      exact Option.noConfusion hv
    rw [if_neg hval, hv]
    unfold sizeUnitScale
    split_ifs <;> rfl
  · intro s hv
    unfold parse_size_str_to_bytes
    by_cases hs : s = ""
    · rw [if_pos hs]
    · rw [if_neg hs]
      by_cases hval : stripNonNumeric s = ""
      · rw [if_pos hval]
      · rw [if_neg hval, hv]

/-- C9, witness: the unit clause of the size-normalizer theorem applied
at `"2 KiB"`, whose magnitude is the integer 2 and whose unit factor is
1024, giving 2048 bytes. -/
theorem C9_witness :
    parse_size_str_to_bytes "2 KiB" =
      truncDecScaled ⟨2, 0⟩ (sizeUnitScale (pyStrip (pyUpper "2 KiB"))) :=
  C9_size_normalizer.2.2.2.2.1 "2 KiB" ⟨2, 0⟩ (by decide) (by decide)

/-- C1, counterexample: on a model page with no prior active tag and a
dropdown of two rows both displaying tag `"a"` (neither highlighted),
resolution defaults to the first entry: the resolved active tag is
`"a"`, but only the first entry's flag is set - the second entry's tag
part equals the resolved active tag while its active flag stays false,
so the claimed per-entry invariant fails after resolution. -/
theorem C1_counterexample :
    (resolve_dropdown_active "library" "m" none
        [⟨"a", some "a", none, false⟩, ⟨"a", some "a", none, false⟩]).1 = some "a" ∧
    ¬(∀ e ∈ (resolve_dropdown_active "library" "m" none
        [⟨"a", some "a", none, false⟩, ⟨"a", some "a", none, false⟩]).2,
        e.is_active =
          pyOptEqStr (resolve_dropdown_active "library" "m" none
            [⟨"a", some "a", none, false⟩, ⟨"a", some "a", none, false⟩]).1
            e.tag_part) := by
  constructor
  · rfl
  · decide

/-- C1 (amended): whenever the active tag is truthy after the dropdown
loop - i.e. it was resolved from the URL, the tag button, the run
command, or a highlighted dropdown row, rather than by the
first-entry fallback - the reconciliation pass rewrites *every*
dropdown entry's active flag to `tag_part == resolved active tag`; and
the specific-tag endpoint's post-parse rewrite establishes the same
per-entry equality with respect to the requested tag unconditionally.
(When the loop ends with a falsy active tag, the fallback flags only the
first entry, so a later duplicate of its tag part stays inactive.) -/
theorem C1_active_flag_invariant_amended (ns mbn : String) (active0 : Option String)
    (rows : List DropRow)
    (h : pyTruthyOpt (dropdown_loop ns mbn active0 rows).1 = true) :
    (∀ e ∈ (resolve_dropdown_active ns mbn active0 rows).2,
      e.is_active =
        pyOptEqStr (resolve_dropdown_active ns mbn active0 rows).1 e.tag_part) ∧
    (∀ norm_tp entries, ∀ e ∈ specific_tag_rewrite norm_tp entries,
      e.is_active = (e.tag_part == norm_tp)) := by
  constructor
  · intro e he
    unfold resolve_dropdown_active at he ⊢
    simp only [h, Bool.not_true, Bool.false_and, Bool.false_eq_true, if_false,
      if_true, reduceIte] at he ⊢
    rcases List.mem_map.mp he with ⟨x, _, rfl⟩
    rfl
  · intro norm_tp entries e he
    rcases List.mem_map.mp he with ⟨x, _, rfl⟩
    rfl

/-- C1, witness: the amended invariant at a concrete page whose active
tag `"8b"` comes from before the dropdown loop, with two dropdown rows
`"8b"` and `"7b"`, instantiated at the first produced entry. -/
theorem C1_witness :
    (⟨"8b", "m:8b", none, true⟩ : TagSummary).is_active =
      pyOptEqStr
        (resolve_dropdown_active "library" "m" (some "8b")
          [⟨"x", some "8b", none, false⟩, ⟨"x", some "7b", none, false⟩]).1
        (⟨"8b", "m:8b", none, true⟩ : TagSummary).tag_part :=
  (C1_active_flag_invariant_amended "library" "m" (some "8b")
      [⟨"x", some "8b", none, false⟩, ⟨"x", some "7b", none, false⟩] (by decide)).1
    ⟨"8b", "m:8b", none, true⟩ (by decide)

/-- C2: the namespace-fallback ladder of the lookup endpoints - a lookup
found under the caller's (lower-cased) namespace is returned under that
namespace; a 404 under a non-default namespace is retried exactly once
under `"library"`, and a fallback success returns a record whose
identity (effective namespace and full tag name) carries `"library"`,
not the requested namespace; a 404 under both namespaces (or under
`"library"` directly) fails as not-found; and the outcome depends only
on the collaborator's answers for the caller's namespace and
`"library"` - no other request is consulted. -/
theorem C2_namespace_fallback {α : Type} (world : String → FetchResult α)
    (ns mbn tp : String) :
    (∀ d, world (pyLower ns) = .ok d →
      get_specific_tag_details_model world ns mbn tp =
        .ok ⟨pyLower ns, make_full_tag_name (pyLower ns) (pyLower mbn) (pyLower tp), d⟩) ∧
    (∀ d, world (pyLower ns) = .notFound → pyLower ns ≠ "library" →
      world "library" = .ok d →
      get_specific_tag_details_model world ns mbn tp =
        .ok ⟨"library", make_full_tag_name "library" (pyLower mbn) (pyLower tp), d⟩) ∧
    (world (pyLower ns) = .notFound → world "library" = .notFound →
      get_specific_tag_details_model world ns mbn tp = .error .notFound) ∧
    (∀ world2 : String → FetchResult α,
      world2 (pyLower ns) = world (pyLower ns) → world2 "library" = world "library" →
      get_specific_tag_details_model world2 ns mbn tp =
        get_specific_tag_details_model world ns mbn tp) := by
  refine ⟨?_, ?_, ?_, ?_⟩
  · intro d hd
    simp only [get_specific_tag_details_model, fetchWithNamespaceFallback, hd]
  · intro d h404 hns hlib
    simp only [get_specific_tag_details_model, fetchWithNamespaceFallback, h404,
      if_pos hns, hlib]
  · intro h404 hlib
    by_cases hns : pyLower ns = "library"
    · rw [hns] at h404
      simp only [get_specific_tag_details_model, fetchWithNamespaceFallback, hns,
        h404, ne_eq, not_true_eq_false, if_false, reduceIte]
    · simp only [get_specific_tag_details_model, fetchWithNamespaceFallback, h404,
        if_pos hns, hlib]
  · intro world2 h1 h2
    simp only [get_specific_tag_details_model, fetchWithNamespaceFallback, h1, h2]

/-- C2, witness: the fallback clause at the request
`"SomeUser"/"Llama3":"8b"` against a collaborator that only knows the
model under `"library"`: the returned identity carries `"library"` and
the full tag name `"llama3:8b"` built from it. -/
theorem C2_witness :
    get_specific_tag_details_model
        (fun n => if n = "library" then FetchResult.ok (0 : Nat) else .notFound)
        "SomeUser" "Llama3" "8b" =
      .ok ⟨"library", make_full_tag_name "library" (pyLower "Llama3") (pyLower "8b"), 0⟩ :=
  (C2_namespace_fallback
      (fun n => if n = "library" then FetchResult.ok (0 : Nat) else .notFound)
      "SomeUser" "Llama3" "8b").2.1 0 (by decide) (by decide) (by decide)

/-- C6: on an all-tags page for the expected model `ns/mbn`, a row's
displayed name is accepted - and determines the tag - exactly as
claimed: a name with a colon is accepted iff the part before the first
colon matches the expected canonical model name case-insensitively,
yielding the part after the colon as the tag; a bare name is accepted
iff it matches the expected name case-insensitively, yielding tag
`"latest"`; every other row is excluded.  The parser is the row filter
mapped over the rows (anchor-less rows are skipped). -/
theorem C6_all_tags_row_filter (ns mbn displayed t : String) :
    (all_tags_row_tag_part (pyLower (make_full_model_name ns mbn)) displayed = some t ↔
      (match splitFirstColon displayed with
       | some (pre, post) =>
         pyLower pre = pyLower (make_full_model_name ns mbn) ∧ t = post
       | none =>
         pyLower displayed = pyLower (make_full_model_name ns mbn) ∧ t = "latest")) ∧
    (∀ rows, parse_all_tags_rows ns mbn rows =
      rows.filterMap (fun anchor_text =>
        anchor_text.bind (fun d =>
          (all_tags_row_tag_part (pyLower (make_full_model_name ns mbn)) d).map
            (fun tp => ⟨tp, make_full_tag_name ns mbn tp⟩)))) := by
  constructor
  · unfold all_tags_row_tag_part
    cases hs : splitFirstColon displayed with
    | none =>
      simp only [hs]
      split_ifs with hmatch
      · simp [hmatch, eq_comm]
      · simp [hmatch]
    | some p =>
      obtain ⟨pre, post⟩ := p
      simp only [hs]
      split_ifs with hmatch
      · simp [hmatch, eq_comm]
      · simp [hmatch]
  · intro rows
    rfl

/-- C6, witness: the row characterization at the model `library/llama3`
for the displayed name `"llama3:8b"` and tag `"8b"`. -/
theorem C6_witness :
    all_tags_row_tag_part (pyLower (make_full_model_name "library" "llama3"))
        "llama3:8b" = some "8b" :=
  ((C6_all_tags_row_filter "library" "llama3" "llama3:8b" "8b").1).mpr ⟨rfl, rfl⟩

/-- C7: the matched file's declared name decides the blob response
shape.  A name in `{params, template, license, modelfile}` uses the
fetched, decoded content as text (with no GGUF fields); for `"params"`
with truthy fetched text a JSON decode is attempted, and a decode
failure is silently ignored - the structured field stays absent while
the text stays populated (a decode success populates it).  The name
`"model"` never consults the fetch: the result is identical for every
fetch outcome, with no text, the listing snippet as the GGUF snippet
field, and the GGUF normalizer run on a truthy snippet.  Any other
name uses the listing snippet verbatim as text, for every fetch
outcome. -/
theorem C7_blob_classification {α : Type} (jsonDecode : String → Option α)
    (fs : FileSummary) :
    (∀ tc, fs.name ∈ text_blob_names →
      classify_blob jsonDecode (.success tc) fs =
        ⟨tc,
          (match tc with
           | some t => if t ≠ "" ∧ fs.name = "params" then jsonDecode t else none
           | none => none),
          none, none⟩) ∧
    (∀ t, fs.name = "params" → t ≠ "" → jsonDecode t = none →
      classify_blob jsonDecode (.success (some t)) fs = ⟨some t, none, none, none⟩) ∧
    (∀ t j, fs.name = "params" → t ≠ "" → jsonDecode t = some j →
      classify_blob jsonDecode (.success (some t)) fs = ⟨some t, some j, none, none⟩) ∧
    (fs.name = "model" →
      (∀ f₁ f₂, classify_blob jsonDecode f₁ fs = classify_blob jsonDecode f₂ fs) ∧
      classify_blob jsonDecode .failure fs =
        ⟨none, none, some fs.snippet,
          if fs.snippet ≠ "" then parse_gguf_metadata_from_snippet fs.snippet
          else none⟩) ∧
    (fs.name ∉ text_blob_names → fs.name ≠ "model" →
      ∀ f, classify_blob jsonDecode f fs = ⟨some fs.snippet, none, none, none⟩) := by
  refine ⟨?_, ?_, ?_, ?_, ?_⟩
  · intro tc hname
    simp only [classify_blob, if_pos hname]
  · intro t hname ht hdec
    have hmem : ("params" : String) ∈ text_blob_names := by decide
    simp only [classify_blob, hname, if_pos hmem, hdec, ne_eq, ht, not_false_iff,
      and_self, if_true, reduceIte]
  · intro t j hname ht hdec
    have hmem : ("params" : String) ∈ text_blob_names := by decide
    simp only [classify_blob, hname, if_pos hmem, hdec, ne_eq, ht, not_false_iff,
      and_self, if_true, reduceIte]
  · intro hname
    have hmem : ¬("model" : String) ∈ text_blob_names := by decide
    constructor
    · intro f₁ f₂
      cases f₁ <;> cases f₂ <;>
        simp only [classify_blob, hname, if_neg hmem, reduceIte]
    · simp only [classify_blob, hname, if_neg hmem, reduceIte]
  · intro hmem hname f
    cases f <;> simp only [classify_blob, if_neg hmem, if_neg hname, reduceIte]

/-- C7, witness: the silent-decode-failure clause for a `"params"` file
whose fetched text `"not json"` fails to decode: the text field stays
populated while the structured field is absent. -/
theorem C7_witness :
    classify_blob (fun _ => (none : Option Nat)) (.success (some "not json"))
        ⟨"params", "snip", none, "1B", ""⟩ =
      ⟨some "not json", none, none, none⟩ :=
  (C7_blob_classification (fun _ => (none : Option Nat))
      ⟨"params", "snip", none, "1B", ""⟩).2.1 "not json" rfl (by decide) rfl
